import Mathlib

/-!
Verification development for the PurpleHammer Twitch moderation bot.

The definitions below are a shallow embedding of the program's core
(`src/chat.rs` and `src/checker.rs`): the tag parser, the protocol
classifier `parse_message`, the roster, and the moderation engine
`process_message`.  Machine integers (`u32`) are modelled as `Nat`
with an explicit bound; the `Tm` timestamp is modelled as a `Nat`
supplied to the engine as a `now` parameter; the IRC transport's
`send` is modelled by an oracle `sendOk : String -> Bool` deciding
whether each outgoing line is delivered, with the engine recording
every attempted line together with its delivery outcome.
-/

namespace PurpleHammer

/-- Model of Rust's `str::trim` (whitespace stripped from both ends). -/
def strTrim (s : String) : String :=
  String.mk (((s.data.dropWhile Char.isWhitespace).reverse.dropWhile Char.isWhitespace).reverse)

/-- Model of Rust's `u32::from_str`: an optional leading `+`, then decimal
digits, rejecting the empty string and values that overflow 32 bits. -/
def parseU32 (s : String) : Option Nat :=
  let chars : List Char :=
    match s.data with
    | '+' :: rest => rest
    | l => l
  if chars.isEmpty then none
  else if chars.all (fun c => c.isDigit) then
    let n := chars.foldl (fun acc c => acc * 10 + (c.toNat - 48)) 0
    if n < 4294967296 then some n else none
  else none

/-- An IRC v3 message tag: a key with an optional value (`irc::client::data::message::Tag`). -/
structure Tag where
  key : String
  val : Option String
deriving DecidableEq

/-- The `TwitchUserType` enum from `chat.rs`. -/
inductive TwitchUserType where
  | None
  | Mod
  | GlobalMod
  | Admin
  | Staff
  | Other (s : String)
deriving DecidableEq

/-- The `From<String> for TwitchUserType` conversion. -/
def TwitchUserType.fromString (input : String) : TwitchUserType :=
  if input = "" then TwitchUserType.None
  else if input = "mod" then TwitchUserType.Mod
  else if input = "global_mod" then TwitchUserType.GlobalMod
  else if input = "admin" then TwitchUserType.Admin
  else if input = "staff" then TwitchUserType.Staff
  else TwitchUserType.Other input

/-- The `MessageTagData` struct from `chat.rs` (default: every field absent). -/
structure MessageTagData where
  color : Option String := none
  display_name : Option String := none
  id : Option String := none
  is_mod : Option Bool := none
  is_subscriber : Option Bool := none
  is_turbo : Option Bool := none
  room_id : Option Nat := none
  user_id : Option Nat := none
  user_type : Option TwitchUserType := none
deriving DecidableEq

/-- The all-absent `Default::default()` value of `MessageTagData`. -/
def MessageTagData.default : MessageTagData := {}

/-- Loop body of `MessageTagData::from_tags`, processing the tag list in
order over the accumulated result; `room-id` / `user-id` values that fail
to parse abort the whole parse with an error. -/
def MessageTagData.fromTagsGo : List Tag → MessageTagData → Except String MessageTagData
  | [], r => Except.ok r
  | t :: rest, r =>
    match t.val with
    | none => MessageTagData.fromTagsGo rest r
    | some val =>
      match t.key with
      | "badges" => MessageTagData.fromTagsGo rest r
      | "color" => MessageTagData.fromTagsGo rest { r with color := some val }
      | "display-name" => MessageTagData.fromTagsGo rest { r with color := some val }
      | "emotes" => MessageTagData.fromTagsGo rest r
      | "id" => MessageTagData.fromTagsGo rest { r with id := some val }
      | "mod" => MessageTagData.fromTagsGo rest { r with is_mod := some (val = "1") }
      | "subscriber" => MessageTagData.fromTagsGo rest { r with is_subscriber := some (val = "1") }
      | "turbo" => MessageTagData.fromTagsGo rest { r with is_turbo := some (val = "1") }
      | "room-id" =>
        match parseU32 val with
        | some parsed => MessageTagData.fromTagsGo rest { r with room_id := some parsed }
        | none => Except.error ("Could not parse the room id " ++ val)
      | "user-id" =>
        match parseU32 val with
        | some parsed => MessageTagData.fromTagsGo rest { r with user_id := some parsed }
        | none => Except.error ("Could not parse the user id " ++ val)
      | "user-type" =>
        MessageTagData.fromTagsGo rest { r with user_type := some (TwitchUserType.fromString val) }
      | _ => MessageTagData.fromTagsGo rest r

/-- The `MessageTagData::from_tags` associated function. -/
def MessageTagData.from_tags (tags : List Tag) : Except String MessageTagData :=
  MessageTagData.fromTagsGo tags MessageTagData.default

/-- The `RoomStateTags` struct from `chat.rs`. -/
structure RoomStateTags where
  language : Option String := none
  r9k : Option Bool := none
  subs_only : Option Bool := none
  slow : Option Bool := none
deriving DecidableEq

/-- The `RoomStateTags::from_tags_list` associated function. -/
def RoomStateTags.from_tags_list (tags : List Tag) : RoomStateTags :=
  tags.foldl
    (fun result t =>
      match t.val with
      | none => result
      | some val =>
        if t.key = "language" then { result with language := some val }
        else if t.key = "r9k" then { result with r9k := some (val = "1") }
        else if t.key = "subs-only" then { result with subs_only := some (val = "1") }
        else if t.key = "slow" then { result with slow := some (val = "1") }
        else result)
    {}

/-- The `ChatUser` roster entry from `chat.rs`; `auto_ban_date` holds the
timestamp (`Tm`, modelled as `Nat`) of an automatic sanction. -/
structure ChatUser where
  nickname : String
  display_name : String
  is_mod : Bool
  is_paying : Bool
  auto_ban_date : Option Nat
deriving DecidableEq

/-- The `ChatUser::new` constructor: display name defaults to the nickname,
flags false, no auto-ban date. -/
def ChatUser.new (nickname : String) : ChatUser :=
  { nickname := nickname
    display_name := nickname
    is_mod := false
    is_paying := false
    auto_ban_date := none }

/-- The `Checker` struct from `checker.rs`. -/
structure Checker where
  ban_list : List String
deriving DecidableEq

/-- The `Checker::new` constructor with its hardcoded ban list. -/
def Checker.new : Checker :=
  { ban_list := ["ban me!", "hello"] }

/-- The `Checker::check` method: exact equality against any list entry. -/
def Checker.check (c : Checker) (input : String) : Bool :=
  c.ban_list.any (fun expr => expr = input)

/-- The roster: the `all_users` hash map, modelled as an association list
from nickname to `ChatUser` (keys unique, order irrelevant). -/
abbrev Roster := List (String × ChatUser)

/-- Lookup in the roster (`HashMap::get`). -/
def lookupUser : Roster → String → Option ChatUser
  | [], _ => none
  | (k, u) :: rest, n => if k = n then some u else lookupUser rest n

/-- In-place update of an existing roster entry (`HashMap::get_mut` followed
by a field mutation); a missing key leaves the roster unchanged. -/
def updateUser : Roster → String → (ChatUser → ChatUser) → Roster
  | [], _, _ => []
  | (k, u) :: rest, n, f =>
    if k = n then (k, f u) :: rest else (k, u) :: updateUser rest n f

/-- The `Chat::user_ensure_exists` method, acting on the roster: returns the
new roster together with the `existed` flag the Rust method returns. -/
def user_ensure_exists (users : Roster) (nickname : String) : Roster × Bool :=
  if (lookupUser users nickname).isSome then (users, true)
  else ((nickname, ChatUser.new nickname) :: users, false)

/-- The `ChatMessage` enum from `chat.rs` (the classifier's closed event set). -/
inductive ChatMessage where
  | Message (author : String) (text : String) (tags : MessageTagData)
  | Join (nickname : String)
  | Leave (nickname : String)
  | Clear
  | Timeout (nickname : String) (duration : Nat) (reason : Option String)
  | Ban (nickname : String) (reason : Option String)
  | Operator (nickname : String) (is_op : Bool)
  | RoomState (tags : RoomStateTags)
  | Capability (names : List String)
  | InvalidAuthToken
  | SubModeOn
  | SubModeAlreadyOn
  | SubModeOff
  | SubModeAlreadyOff
  | SlowModeOn (seconds : Nat)
  | SlowModeOff
  | R9kModeOn
  | R9kModeAlreadyOn
  | R9kModeOff
  | R9kModeAlreadyOff
  | HostModeOn (target : String)
  | HostModeAlreadyOn (target : String)
  | HostModeOff
  | HostsRemaining (count : Nat)
  | EmoteModeOn
  | EmoteModeAlreadyOn
  | EmoteModeOff
  | EmoteModeAlreadyOff
  | ChannelSuspended
  | TimeoutConfirmed (nickname : String) (seconds : Nat)
  | BanConfirmed (nickname : String)
  | UnbanConfirmed (nickname : String)
  | UnbanNoBan (nickname : String)
  | BanAlreadyBanned (nickname : String)
  | UnrecognisedCommand (text : String)
deriving DecidableEq

/-- The `CapSubCommand` values of the irc crate that `parse_message`
dispatches on; only `ACK` is acted upon. -/
inductive CapSubCommand where
  | LS
  | LIST
  | REQ
  | ACK
  | NAK
  | CLEAR
  | END
deriving DecidableEq

/-- The raw IRC command shapes `parse_message` dispatches on
(`irc::client::data::Command`); every variant the code ignores is
collapsed into `Other`, matching the catch-all `_ => None` arm. -/
inductive Command where
  | PRIVMSG (target : String) (msg : String)
  | CAP (target : Option String) (sub : CapSubCommand) (x : Option String) (param : Option String)
  | MODE (target : String) (mode : String) (nickname : Option String)
  | NOTICE (target : String) (content : String)
  | JOIN (chanlist : String) (a : Option String) (b : Option String)
  | PART (chanlist : String) (a : Option String)
  | Raw (cmdname : String) (args : List String) (suffix : Option String)
  | Other
deriving DecidableEq

/-- A raw IRC message: optional tag list, optional sender prefix string
(field `pfx`), and the command. -/
structure Message where
  tags : Option (List Tag)
  pfx : Option String
  command : Command
deriving DecidableEq

/-- The `Chat::parse_user_name_from_prefix` helper: the substring of the
prefix before the first `!`, or `none` when no `!` occurs. -/
def parse_user_name_from_pfx (p : String) : Option String :=
  if p.data.contains '!' then some (String.mk (p.data.takeWhile (fun c => c ≠ '!')))
  else none

/-- The `Chat::parse_user_name_from_message` helper. -/
def parse_user_name_from_message (message : Message) : Option String :=
  match message.pfx with
  | some p => parse_user_name_from_pfx p
  | none => none

/-- Model of Rust's `str::split_whitespace`: split on whitespace, dropping
empty fragments. -/
def splitWhitespace (s : String) : List String :=
  (s.split (fun c => c.isWhitespace)).filter (fun t => t ≠ "")

/-- The CLEARCHAT tag loop of `parse_message`: folds over the tags, the
last `ban-duration` value determining the duration (reset to `none` when
it fails to parse) and the last `ban-reason` value the reason. -/
def clearchatTags : List Tag → Option Nat × Option String → Option Nat × Option String
  | [], acc => acc
  | t :: rest, acc =>
    match t.val with
    | none => clearchatTags rest acc
    | some val =>
      if t.key = "ban-duration" then clearchatTags rest (parseU32 val, acc.2)
      else if t.key = "ban-reason" then clearchatTags rest (acc.1, some val)
      else clearchatTags rest acc

/-- Accumulator of the raw NOTICE tag loop in `parse_message`. -/
structure NoticeAcc where
  msg_id : Option String := none
  slow_duration : Option Nat := none
  target_channel : Option String := none
  number : Option Nat := none
  target_user : Option String := none
  ban_duration : Option Nat := none
  invalid_command : Option String := none
deriving DecidableEq

/-- The raw NOTICE tag loop of `parse_message`. -/
def noticeFold : List Tag → NoticeAcc → NoticeAcc
  | [], acc => acc
  | t :: rest, acc =>
    let acc' :=
      match t.key with
      | "msg-id" => { acc with msg_id := t.val }
      | "slow-duration" => { acc with slow_duration := t.val.bind parseU32 }
      | "target-channel" => { acc with target_channel := t.val }
      | "number" => { acc with number := t.val.bind parseU32 }
      | "target-user" => { acc with target_user := t.val }
      | "ban-duration" => { acc with ban_duration := t.val.bind parseU32 }
      | "command" => { acc with invalid_command := t.val }
      | _ => acc
    noticeFold rest acc'

/-- The `msg-id` dispatch of the raw NOTICE branch of `parse_message`. -/
def noticeDispatch (msg_id : String) (acc : NoticeAcc) : Option ChatMessage :=
  match msg_id with
  | "subs_on" => some ChatMessage.SubModeOn
  | "already_subs_on" => some ChatMessage.SubModeAlreadyOn
  | "subs_off" => some ChatMessage.SubModeOff
  | "already_subs_off" => some ChatMessage.SubModeAlreadyOff
  | "slow_on" =>
    match acc.slow_duration with
    | some slow_duration => some (ChatMessage.SlowModeOn slow_duration)
    | none => none
  | "slow_off" => some ChatMessage.SlowModeOff
  | "r9k_on" => some ChatMessage.R9kModeOn
  | "already_r9k_on" => some ChatMessage.R9kModeAlreadyOn
  | "r9k_off" => some ChatMessage.R9kModeOff
  | "already_r9k_off" => some ChatMessage.R9kModeAlreadyOff
  | "host_on" =>
    match acc.target_channel with
    | some target_channel => some (ChatMessage.HostModeOn target_channel)
    | none => none
  | "bad_host_hosting" =>
    match acc.target_channel with
    | some target_channel => some (ChatMessage.HostModeAlreadyOn target_channel)
    | none => none
  | "host_off" => some ChatMessage.HostModeOff
  | "hosts_remaining" =>
    match acc.number with
    | some number => some (ChatMessage.HostsRemaining number)
    | none => none
  | "emote_only_on" => some ChatMessage.EmoteModeOn
  | "already_emote_only_on" => some ChatMessage.EmoteModeAlreadyOn
  | "emote_only_off" => some ChatMessage.EmoteModeOff
  | "already_emote_only_off" => some ChatMessage.EmoteModeAlreadyOff
  | "msg_channel_suspended" => some ChatMessage.ChannelSuspended
  | "timeout_success" =>
    match acc.target_user with
    | some target_user =>
      match acc.ban_duration with
      | some ban_duration => some (ChatMessage.TimeoutConfirmed target_user ban_duration)
      | none => none
    | none => none
  | "ban_success" =>
    match acc.target_user with
    | some target_user => some (ChatMessage.BanConfirmed target_user)
    | none => none
  | "unban_success" =>
    match acc.target_user with
    | some target_user => some (ChatMessage.UnbanConfirmed target_user)
    | none => none
  | "bad_unban_no_ban" =>
    match acc.target_user with
    | some target_user => some (ChatMessage.UnbanNoBan target_user)
    | none => none
  | "already_banned" =>
    match acc.target_user with
    | some target_user => some (ChatMessage.BanAlreadyBanned target_user)
    | none => none
  | "unrecognized_cmd" =>
    match acc.invalid_command with
    | some invalid_command => some (ChatMessage.UnrecognisedCommand invalid_command)
    | none => none
  | _ => none

/-- The `Chat::parse_message` protocol classifier: one raw message in, at
most one `ChatMessage` out. -/
def parse_message (message : Message) : Option ChatMessage :=
  match message.command with
  | Command.PRIVMSG _ msg =>
    match message.tags with
    | some msgtags =>
      match message.pfx with
      | some p =>
        match MessageTagData.from_tags msgtags with
        | Except.ok tags =>
          match parse_user_name_from_pfx p with
          | some nickname => some (ChatMessage.Message nickname msg tags)
          | none => none
        | Except.error _ => none
      | none => none
    | none => none
  | Command.CAP _ sub _ param =>
    match sub with
    | CapSubCommand.ACK =>
      match param with
      | some param_str => some (ChatMessage.Capability (splitWhitespace param_str))
      | none => none
    | _ => none
  | Command.MODE _ mode nickname_opt =>
    match nickname_opt with
    | some nickname =>
      if mode = "+o" then some (ChatMessage.Operator nickname true)
      else if mode = "-o" then some (ChatMessage.Operator nickname false)
      else none
    | none => none
  | Command.NOTICE _ content =>
    if content = "Login authentication failed" then some ChatMessage.InvalidAuthToken
    else none
  | Command.JOIN _ _ _ =>
    match parse_user_name_from_message message with
    | some nickname => some (ChatMessage.Join nickname)
    | none => none
  | Command.PART _ _ =>
    match parse_user_name_from_message message with
    | some nickname => some (ChatMessage.Leave nickname)
    | none => none
  | Command.Raw cmdname _ suffix =>
    if cmdname = "CLEARCHAT" then
      match suffix with
      | some nickname =>
        match message.tags with
        | some tags =>
          let dr := clearchatTags tags (none, none)
          match dr.1 with
          | some durval => some (ChatMessage.Timeout nickname durval dr.2)
          | none => some (ChatMessage.Ban nickname dr.2)
        | none => none
      | none => some ChatMessage.Clear
    else if cmdname = "ROOMSTATE" then
      match message.tags with
      | some msgtags => some (ChatMessage.RoomState (RoomStateTags.from_tags_list msgtags))
      | none => none
    else if cmdname = "NOTICE" then
      match message.tags with
      | some tags =>
        let acc := noticeFold tags {}
        match acc.msg_id with
        | some msg_id => noticeDispatch msg_id acc
        | none => none
      | none => none
    else none
  | Command.Other => none

/-- Capability name constants from `chat.rs`. -/
def CAP_MEMBERSHIP : String := "twitch.tv/membership"

/-- Capability name constant for Twitch commands. -/
def CAP_COMMANDS : String := "twitch.tv/commands"

/-- Capability name constant for Twitch tags. -/
def CAP_TAGS : String := "twitch.tv/tags"

/-- The announcement sent when hammer mode is enabled. -/
def hammerOnAnnouncement : String :=
  "⚠️ ATTENTION : Hammer mode has been enabled. Please refrain from sending messages that could look like what a bot would say!"

/-- The announcement sent when hammer mode is disabled. -/
def hammerOffAnnouncement : String :=
  "Hammer mode has been disabled. I'll stop banning now!"

/-- The `Chat` session state from `chat.rs`; the IRC server handle is the
external transport and is replaced by the send oracle passed to
`process_message`. -/
structure Chat where
  channel : String
  checker : Checker
  cap_membership_enabled : Bool
  cap_commands_enabled : Bool
  cap_tags_enabled : Bool
  all_users : Roster
  ban_mode_enabled : Bool
  my_nickname : String
deriving DecidableEq

/-- The `Chat::send` method: attempts to deliver one line; the delivery
outcome (decided by the transport oracle) is only recorded, never consulted
by the caller. -/
def send (sendOk : String → Bool) (msg : String) : List (String × Bool) :=
  [(msg, sendOk msg)]

/-- The per-message roster update block of `Chat::process_message`:
display-name overwrite when present, and the monotonic `is_paying`
promotion on a true `turbo` or `subscriber` tag. -/
def ChatUser.applyTags (user : ChatUser) (tags : MessageTagData) : ChatUser :=
  let u1 :=
    match tags.display_name with
    | some display_name => { user with display_name := display_name }
    | none => user
  let u2 := if tags.is_turbo = some true then { u1 with is_paying := true } else u1
  if tags.is_subscriber = some true then { u2 with is_paying := true } else u2

/-- The per-capability body of the `Capability` loop of
`Chat::process_message`: sets the acknowledgement flag of a recognized
capability name. -/
def capStep (st : Chat) (cap_name : String) : Chat :=
  if cap_name = CAP_COMMANDS then { st with cap_commands_enabled := true }
  else if cap_name = CAP_MEMBERSHIP then { st with cap_membership_enabled := true }
  else if cap_name = CAP_TAGS then { st with cap_tags_enabled := true }
  else st

/-- The `Chat::process_message` moderation engine.  Returns the new session
state and the list of attempted outgoing lines, each paired with its
delivery outcome as decided by `sendOk`.  `now` models `time::now_utc()`. -/
def process_message (sendOk : String → Bool) (now : Nat) (c : Chat) (m : ChatMessage) :
    Chat × List (String × Bool) :=
  match m with
  | ChatMessage.Message nickname msg tags =>
    if nickname = c.my_nickname then (c, [])
    else
      let users1 := (user_ensure_exists c.all_users nickname).1
      let info :=
        match lookupUser users1 nickname with
        | some user =>
          let updated := ChatUser.applyTags user tags
          (updateUser users1 nickname (fun _ => updated), user.is_mod,
           user.is_mod || updated.is_paying || updated.auto_ban_date.isSome)
        | none => (users1, false, false)
      let users2 := info.1
      let user_is_mod := info.2.1
      let user_is_protected := info.2.2
      if msg = ":hammer on" then
        if user_is_mod then
          ({ c with all_users := users2, ban_mode_enabled := true },
           send sendOk hammerOnAnnouncement)
        else ({ c with all_users := users2 }, [])
      else if msg = ":hammer off" then
        if user_is_mod then
          ({ c with all_users := users2, ban_mode_enabled := false },
           send sendOk hammerOffAnnouncement)
        else ({ c with all_users := users2 }, [])
      else if c.ban_mode_enabled then
        if !user_is_protected && Checker.check c.checker (strTrim msg) then
          let out := send sendOk ("/ban " ++ nickname)
          let users3 :=
            match lookupUser users2 nickname with
            | some _ => updateUser users2 nickname (fun u => { u with auto_ban_date := some now })
            | none => users2
          ({ c with all_users := users3 }, out)
        else ({ c with all_users := users2 }, [])
      else ({ c with all_users := users2 }, [])
  | ChatMessage.Capability caps => (caps.foldl capStep c, [])
  | ChatMessage.Operator nickname is_op =>
    let users1 := (user_ensure_exists c.all_users nickname).1
    match lookupUser users1 nickname with
    | some _ =>
      ({ c with all_users := updateUser users1 nickname (fun u => { u with is_mod := is_op }) }, [])
    | none => ({ c with all_users := users1 }, [])
  | ChatMessage.InvalidAuthToken => (c, [])
  | _ => (c, [])

/-- The roster entry the sender of a message ends up with right after the
engine's ensure step: the existing entry, or a fresh default one. -/
def ensuredUser (users : Roster) (nickname : String) : ChatUser :=
  (lookupUser users nickname).getD (ChatUser.new nickname)

/-- Protection as the spec states it: moderator, paying, or already
auto-banned. -/
def ChatUser.isProtected (u : ChatUser) : Bool :=
  u.is_mod || u.is_paying || u.auto_ban_date.isSome

/-- The roster entry the sender of a message holds after the engine's
tag-update step. -/
def senderUser (c : Chat) (nickname : String) (tags : MessageTagData) : ChatUser :=
  ChatUser.applyTags (ensuredUser c.all_users nickname) tags

/-- The roster after the ensure and tag-update steps of the Message branch. -/
def msgRoster (c : Chat) (nickname : String) (tags : MessageTagData) : Roster :=
  updateUser (user_ensure_exists c.all_users nickname).1 nickname
    (fun _ => senderUser c nickname tags)

theorem lookup_ensure (users : Roster) (n : String) :
    lookupUser (user_ensure_exists users n).1 n = some (ensuredUser users n) := by
  unfold user_ensure_exists ensuredUser
  cases h : lookupUser users n with
  | some u => simp [h]
  | none => simp [h, lookupUser]

theorem lookup_ensure_of_some (users : Roster) (n' n : String) (u : ChatUser)
    (h : lookupUser users n = some u) :
    lookupUser (user_ensure_exists users n').1 n = some u := by
  unfold user_ensure_exists
  cases h' : lookupUser users n' with
  | some v => simp [h', h]
  | none =>
    have hne : n' ≠ n := by
      rintro rfl
      rw [h] at h'
      cases h'
    simp [h', lookupUser, hne, h]

theorem lookup_update_self (users : Roster) (k : String) (f : ChatUser → ChatUser) :
    lookupUser (updateUser users k f) k = (lookupUser users k).map f := by
  induction users with
  | nil => rfl
  | cons hd tl ih =>
    obtain ⟨k', u⟩ := hd
    by_cases h : k' = k
    · subst h
      simp [updateUser, lookupUser]
    · simp [updateUser, lookupUser, h, ih]

theorem lookup_update_ne (users : Roster) (k n : String) (f : ChatUser → ChatUser)
    (h : n ≠ k) :
    lookupUser (updateUser users k f) n = lookupUser users n := by
  induction users with
  | nil => rfl
  | cons hd tl ih =>
    obtain ⟨k', u⟩ := hd
    by_cases h1 : k' = k
    · subst h1
      have h2 : ¬(k' = n) := fun hh => h (by rw [← hh])
      simp [updateUser, lookupUser, h2]
    · by_cases h2 : k' = n
      · subst h2
        simp [updateUser, lookupUser, h1]
      · simp [updateUser, lookupUser, h1, h2, ih]

theorem applyTags_is_mod (u : ChatUser) (t : MessageTagData) :
    (ChatUser.applyTags u t).is_mod = u.is_mod := by
  unfold ChatUser.applyTags
  rcases hd : t.display_name with _ | dn <;>
    by_cases h1 : t.is_turbo = some true <;>
    by_cases h2 : t.is_subscriber = some true <;>
    simp [hd, h1, h2]

theorem applyTags_auto_ban_date (u : ChatUser) (t : MessageTagData) :
    (ChatUser.applyTags u t).auto_ban_date = u.auto_ban_date := by
  unfold ChatUser.applyTags
  rcases hd : t.display_name with _ | dn <;>
    by_cases h1 : t.is_turbo = some true <;>
    by_cases h2 : t.is_subscriber = some true <;>
    simp [hd, h1, h2]

theorem applyTags_is_paying_mono (u : ChatUser) (t : MessageTagData)
    (h : u.is_paying = true) :
    (ChatUser.applyTags u t).is_paying = true := by
  unfold ChatUser.applyTags
  rcases hd : t.display_name with _ | dn <;>
    by_cases h1 : t.is_turbo = some true <;>
    by_cases h2 : t.is_subscriber = some true <;>
    simp [hd, h1, h2, h]

theorem applyTags_is_paying_of_tag (u : ChatUser) (t : MessageTagData)
    (h : t.is_subscriber = some true ∨ t.is_turbo = some true) :
    (ChatUser.applyTags u t).is_paying = true := by
  unfold ChatUser.applyTags
  rcases hd : t.display_name with _ | dn <;>
    by_cases h1 : t.is_turbo = some true <;>
    by_cases h2 : t.is_subscriber = some true <;>
    simp [hd, h1, h2] <;> tauto

theorem lookup_msgRoster (c : Chat) (nickname : String) (tags : MessageTagData) :
    lookupUser (msgRoster c nickname tags) nickname = some (senderUser c nickname tags) := by
  unfold msgRoster
  rw [lookup_update_self, lookup_ensure]
  rfl

/-- Full characterization of the Message branch of `process_message` for a
sender other than the bot itself. -/
theorem process_message_message (sendOk : String → Bool) (now : Nat) (c : Chat)
    (nickname msg : String) (tags : MessageTagData) (hself : nickname ≠ c.my_nickname) :
    process_message sendOk now c (ChatMessage.Message nickname msg tags) =
      (if msg = ":hammer on" then
        if (ensuredUser c.all_users nickname).is_mod then
          ({ c with all_users := msgRoster c nickname tags, ban_mode_enabled := true },
           send sendOk hammerOnAnnouncement)
        else ({ c with all_users := msgRoster c nickname tags }, [])
      else if msg = ":hammer off" then
        if (ensuredUser c.all_users nickname).is_mod then
          ({ c with all_users := msgRoster c nickname tags, ban_mode_enabled := false },
           send sendOk hammerOffAnnouncement)
        else ({ c with all_users := msgRoster c nickname tags }, [])
      else if c.ban_mode_enabled then
        if !(ChatUser.isProtected (senderUser c nickname tags)) &&
            Checker.check c.checker (strTrim msg) then
          ({ c with all_users := (updateUser (msgRoster c nickname tags) nickname
               (fun u => { u with auto_ban_date := some now })) },
           send sendOk ("/ban " ++ nickname))
        else ({ c with all_users := msgRoster c nickname tags }, [])
      else ({ c with all_users := msgRoster c nickname tags }, [])) := by
  simp only [process_message]
  rw [if_neg hself]
  simp only [lookup_ensure, lookup_update_self, Option.map_some', msgRoster, senderUser,
    ChatUser.isProtected, applyTags_is_mod]

theorem process_message_self (sendOk : String → Bool) (now : Nat) (c : Chat)
    (msg : String) (tags : MessageTagData) :
    process_message sendOk now c (ChatMessage.Message c.my_nickname msg tags) = (c, []) := by
  simp [process_message]

theorem lookup_ensure_ne (users : Roster) (n' n : String) (h : n ≠ n') :
    lookupUser (user_ensure_exists users n').1 n = lookupUser users n := by
  unfold user_ensure_exists
  cases h' : lookupUser users n' with
  | some v => simp [h']
  | none =>
    have hne : ¬(n' = n) := fun hh => h (by rw [hh])
    simp [h', lookupUser, hne]

theorem lookup_msgRoster_ne (c : Chat) (nickname : String) (tags : MessageTagData)
    (n : String) (h : n ≠ nickname) :
    lookupUser (msgRoster c nickname tags) n = lookupUser c.all_users n := by
  unfold msgRoster
  rw [lookup_update_ne _ _ _ _ h, lookup_ensure_ne _ _ _ h]

theorem ensuredUser_of_some (users : Roster) (n : String) (u : ChatUser)
    (h : lookupUser users n = some u) : ensuredUser users n = u := by
  unfold ensuredUser
  rw [h]
  rfl

theorem capStep_all_users (st : Chat) (s : String) :
    (capStep st s).all_users = st.all_users := by
  unfold capStep
  split_ifs <;> rfl

theorem capStep_ban_mode (st : Chat) (s : String) :
    (capStep st s).ban_mode_enabled = st.ban_mode_enabled := by
  unfold capStep
  split_ifs <;> rfl

theorem foldl_capStep_all_users (caps : List String) (c : Chat) :
    (caps.foldl capStep c).all_users = c.all_users := by
  induction caps generalizing c with
  | nil => rfl
  | cons hd tl ih => rw [List.foldl_cons, ih, capStep_all_users]

theorem foldl_capStep_ban_mode (caps : List String) (c : Chat) :
    (caps.foldl capStep c).ban_mode_enabled = c.ban_mode_enabled := by
  induction caps generalizing c with
  | nil => rfl
  | cons hd tl ih => rw [List.foldl_cons, ih, capStep_ban_mode]

theorem process_message_roster_other (sendOk : String → Bool) (now : Nat) (c : Chat)
    (m : ChatMessage)
    (h1 : ∀ nickname msg tags, m ≠ ChatMessage.Message nickname msg tags)
    (h2 : ∀ nickname is_op, m ≠ ChatMessage.Operator nickname is_op) :
    (process_message sendOk now c m).1.all_users = c.all_users := by
  cases m
  case Message a b t => exact absurd rfl (h1 a b t)
  case Operator a b => exact absurd rfl (h2 a b)
  case Capability caps =>
    simp only [process_message]
    exact foldl_capStep_all_users caps c
  all_goals rfl

theorem process_message_ban_mode_other (sendOk : String → Bool) (now : Nat) (c : Chat)
    (m : ChatMessage)
    (h1 : ∀ nickname msg tags, m ≠ ChatMessage.Message nickname msg tags) :
    (process_message sendOk now c m).1.ban_mode_enabled = c.ban_mode_enabled := by
  cases m
  case Message a b t => exact absurd rfl (h1 a b t)
  case Capability caps =>
    simp only [process_message]
    exact foldl_capStep_ban_mode caps c
  case Operator a b =>
    simp only [process_message]
    split <;> rfl
  all_goals rfl

theorem operator_lookup_cases (sendOk : String → Bool) (now : Nat) (c : Chat)
    (a : String) (b : Bool) (n : String) (u : ChatUser)
    (hu : lookupUser c.all_users n = some u) :
    lookupUser (process_message sendOk now c (ChatMessage.Operator a b)).1.all_users n = some u ∨
    lookupUser (process_message sendOk now c (ChatMessage.Operator a b)).1.all_users n =
      some { u with is_mod := b } := by
  simp only [process_message, lookup_ensure]
  by_cases hn : n = a
  · subst hn
    right
    rw [lookup_update_self, lookup_ensure, ensuredUser_of_some c.all_users n u hu]
    rfl
  · left
    rw [lookup_update_ne _ _ _ _ hn, lookup_ensure_ne _ _ _ hn, hu]

theorem message_lookup_cases (sendOk : String → Bool) (now : Nat) (c : Chat)
    (nickname msg : String) (tags : MessageTagData) (n : String) (u : ChatUser)
    (hu : lookupUser c.all_users n = some u) :
    lookupUser (process_message sendOk now c
        (ChatMessage.Message nickname msg tags)).1.all_users n = some u ∨
    lookupUser (process_message sendOk now c
        (ChatMessage.Message nickname msg tags)).1.all_users n =
      some (ChatUser.applyTags u tags) ∨
    lookupUser (process_message sendOk now c
        (ChatMessage.Message nickname msg tags)).1.all_users n =
      some { ChatUser.applyTags u tags with auto_ban_date := some now } := by
  by_cases hself : nickname = c.my_nickname
  · rw [hself, process_message_self]
    exact Or.inl hu
  · rw [process_message_message sendOk now c nickname msg tags hself]
    by_cases hn : n = nickname
    · subst hn
      have he : senderUser c n tags = ChatUser.applyTags u tags := by
        unfold senderUser
        rw [ensuredUser_of_some c.all_users n u hu]
      split_ifs <;>
        simp only [lookup_msgRoster, lookup_update_self, Option.map_some', he] <;>
        tauto
    · split_ifs <;>
        simp only [lookup_msgRoster_ne c nickname tags n hn,
          lookup_update_ne _ _ _ _ hn, hu] <;>
        tauto

/-- The values carried by `ban-duration` tags, in order. -/
def banDurationVals (ts : List Tag) : List String :=
  ts.filterMap (fun t => if t.key = "ban-duration" then t.val else none)

theorem clearchatTags_duration_nil (ts : List Tag) :
    ∀ acc : Option Nat × Option String, banDurationVals ts = [] →
      (clearchatTags ts acc).1 = acc.1 := by
  induction ts with
  | nil =>
    intro acc _
    rfl
  | cons t rest ih =>
    intro acc h
    rcases ht : t.val with _ | v
    · simp only [banDurationVals, List.filterMap_cons, ht] at h
      simp only [clearchatTags, ht]
      exact ih acc (by simpa [banDurationVals] using h)
    · by_cases hk : t.key = "ban-duration"
      · simp only [banDurationVals, List.filterMap_cons, hk, ht] at h
        simp at h
      · simp only [banDurationVals, List.filterMap_cons, hk, ht] at h
        simp only [clearchatTags, ht, hk]
        by_cases hk2 : t.key = "ban-reason" <;>
          simp only [hk2, if_true, if_false] <;>
          exact ih _ (by simpa [banDurationVals] using h)

theorem clearchatTags_duration_single (ts : List Tag) :
    ∀ (acc : Option Nat × Option String) (v : String), banDurationVals ts = [v] →
      (clearchatTags ts acc).1 = parseU32 v := by
  induction ts with
  | nil =>
    intro acc v h
    simp [banDurationVals] at h
  | cons t rest ih =>
    intro acc v h
    rcases ht : t.val with _ | w
    · simp only [banDurationVals, List.filterMap_cons, ht] at h
      simp only [clearchatTags, ht]
      exact ih acc v (by simpa [banDurationVals] using h)
    · by_cases hk : t.key = "ban-duration"
      · simp only [banDurationVals, List.filterMap_cons, hk, ht, if_true] at h
        have hw : w = v := (List.cons_eq_cons.mp h).1
        have hrest : banDurationVals rest = [] := by
          simpa [banDurationVals] using (List.cons_eq_cons.mp h).2
        simp only [clearchatTags, ht, hk, if_true]
        rw [clearchatTags_duration_nil rest _ hrest, hw]
      · simp only [banDurationVals, List.filterMap_cons, hk, ht] at h
        simp only [clearchatTags, ht, hk]
        by_cases hk2 : t.key = "ban-reason" <;>
          simp only [hk2, if_true, if_false] <;>
          exact ih _ v (by simpa [banDurationVals] using h)

theorem clearchatTags_duration_none (ts : List Tag) :
    ∀ acc : Option Nat × Option String, acc.1 = none →
      (∀ v ∈ banDurationVals ts, parseU32 v = none) →
      (clearchatTags ts acc).1 = none := by
  induction ts with
  | nil =>
    intro acc hacc _
    exact hacc
  | cons t rest ih =>
    intro acc hacc h
    rcases ht : t.val with _ | w
    · simp only [clearchatTags, ht]
      refine ih acc hacc (fun v hv => h v ?_)
      simp [banDurationVals, List.filterMap_cons, ht]
      simpa [banDurationVals] using hv
    · by_cases hk : t.key = "ban-duration"
      · simp only [clearchatTags, ht, hk, if_true]
        have hw : parseU32 w = none := by
          refine h w ?_
          simp [banDurationVals, List.filterMap_cons, hk, ht]
        refine ih _ hw (fun v hv => h v ?_)
        simp [banDurationVals, List.filterMap_cons, hk, ht]
        right
        simpa [banDurationVals] using hv
      · simp only [clearchatTags, ht, hk]
        have hrec : ∀ v ∈ banDurationVals rest, parseU32 v = none := by
          intro v hv
          refine h v ?_
          simpa [banDurationVals, List.filterMap_cons, hk, ht] using hv
        by_cases hk2 : t.key = "ban-reason" <;>
          simp only [hk2, if_true, if_false] <;>
          exact ih _ hacc hrec

theorem fromTagsGo_display_name (ts : List Tag) :
    ∀ r td, MessageTagData.fromTagsGo ts r = Except.ok td →
      td.display_name = r.display_name := by
  induction ts with
  | nil =>
    intro r td h
    cases h
    rfl
  | cons t rest ih =>
    intro r td h
    simp only [MessageTagData.fromTagsGo] at h
    split at h
    · exact ih _ _ h
    · split at h <;>
        first
          | (have hx := ih _ _ h
             exact hx)
          | (split at h <;>
              first
                | (have hx := ih _ _ h
                   exact hx)
                | exact Except.noConfusion h)

/-- A session state as `Chat::new` builds it (streamer `alice` seeded as a
moderator, bot nickname `bot`), with hammer mode already switched on. -/
def chatHammerOn : Chat :=
  { channel := "#alice"
    checker := Checker.new
    cap_membership_enabled := false
    cap_commands_enabled := false
    cap_tags_enabled := false
    all_users := [("alice",
      { nickname := "alice", display_name := "alice", is_mod := true,
        is_paying := false, auto_ban_date := none })]
    ban_mode_enabled := true
    my_nickname := "bot" }

/-- The same session state with hammer mode off (the startup state). -/
def chatHammerOff : Chat :=
  { chatHammerOn with ban_mode_enabled := false }

/-- C5: the tag parser assigns a `display-name` value into the `color`
field and never sets the `display-name` field, so a roster display name is
never overwritten from an observed `display-name` tag. -/
theorem display_name_bug :
    (∀ ts td, MessageTagData.from_tags ts = Except.ok td → td.display_name = none) ∧
    (∀ v, MessageTagData.from_tags [⟨"display-name", some v⟩] =
      Except.ok { MessageTagData.default with color := some v }) := by
  constructor
  · intro ts td h
    exact fromTagsGo_display_name ts _ _ h
  · intro v
    rfl

/-- C5 witness: a concrete `display-name` tag value lands in the color
field. -/
theorem display_name_bug_witness :
    MessageTagData.from_tags [⟨"display-name", some "Shtong"⟩] =
      Except.ok { MessageTagData.default with color := some "Shtong" } :=
  display_name_bug.2 "Shtong"

/-- C8: roster ensure is an idempotent upsert: on a present nickname it
returns `true` and leaves the roster unchanged; on an absent nickname it
returns `false` and inserts a default-flag user; ensuring twice equals
ensuring once. -/
theorem ensure_idempotent (users : Roster) (n : String) :
    (∀ u, lookupUser users n = some u → user_ensure_exists users n = (users, true)) ∧
    (lookupUser users n = none →
      user_ensure_exists users n = ((n, ChatUser.new n) :: users, false) ∧
      ChatUser.new n = ⟨n, n, false, false, none⟩) ∧
    user_ensure_exists (user_ensure_exists users n).1 n = ((user_ensure_exists users n).1, true) := by
  refine ⟨?_, ?_, ?_⟩
  · intro u h
    simp [user_ensure_exists, h]
  · intro h
    exact ⟨by simp [user_ensure_exists, h], rfl⟩
  · generalize hP : user_ensure_exists users n = P
    have h : lookupUser P.1 n = some (ensuredUser users n) := by
      rw [← hP]
      exact lookup_ensure users n
    simp [user_ensure_exists, h]

/-- C8 witness: ensuring an absent nickname inserts the default user. -/
theorem ensure_idempotent_witness :
    user_ensure_exists [] "bob" = ([("bob", ChatUser.new "bob")], false) ∧
    ChatUser.new "bob" = ⟨"bob", "bob", false, false, none⟩ :=
  (ensure_idempotent [] "bob").2.1 rfl

/-- C9: the banned-phrase matcher accepts exactly the two hardcoded strings
`ban me!` and `hello`. -/
theorem checker_check_iff (input : String) :
    Checker.check Checker.new input = true ↔ input = "ban me!" ∨ input = "hello" := by
  constructor
  · intro h
    simp only [Checker.check, Checker.new, List.any_eq_true, List.mem_cons,
      List.mem_singleton, decide_eq_true_eq] at h
    rcases h with ⟨x, hx, hxe⟩
    rcases hx with rfl | rfl | h0
    · exact Or.inl hxe.symm
    · exact Or.inr hxe.symm
    · cases h0
  · rintro (rfl | rfl) <;> decide

/-- C9 witness: the everyday greeting `hello` is a banned phrase. -/
theorem checker_check_iff_witness :
    Checker.check Checker.new "hello" = true :=
  (checker_check_iff "hello").mpr (Or.inr rfl)

/-- C10: a message authored by the bot's own nickname changes no state and
sends nothing, even when its text is a control phrase or a banned phrase. -/
theorem self_message_noop (sendOk : String → Bool) (now : Nat) (c : Chat)
    (msg : String) (tags : MessageTagData) :
    process_message sendOk now c (ChatMessage.Message c.my_nickname msg tags) = (c, []) :=
  process_message_self sendOk now c msg tags

/-- C1: for a message from a sender other than the bot whose text is not a
control phrase, the engine emits the sanction command `/ban sender` and sets
the sender's auto-ban date if and only if hammer mode is on, the sender is
not protected (computed after the subscriber/turbo tag updates), and the
trimmed text is a banned phrase; at most one line is sent per message, and
otherwise the roster keeps the tag-updated sender unchanged. -/
theorem sanction_iff (sendOk : String → Bool) (now : Nat) (c : Chat)
    (nickname msg : String) (tags : MessageTagData)
    (hself : nickname ≠ c.my_nickname)
    (hon : msg ≠ ":hammer on") (hoff : msg ≠ ":hammer off") :
    ((process_message sendOk now c (ChatMessage.Message nickname msg tags)).2 ≠ [] ↔
      c.ban_mode_enabled = true ∧
      (senderUser c nickname tags).isProtected = false ∧
      Checker.check c.checker (strTrim msg) = true) ∧
    ((process_message sendOk now c (ChatMessage.Message nickname msg tags)).2 ≠ [] →
      (process_message sendOk now c (ChatMessage.Message nickname msg tags)).2 =
        [("/ban " ++ nickname, sendOk ("/ban " ++ nickname))] ∧
      lookupUser (process_message sendOk now c
          (ChatMessage.Message nickname msg tags)).1.all_users nickname =
        some { senderUser c nickname tags with auto_ban_date := some now }) ∧
    ((process_message sendOk now c (ChatMessage.Message nickname msg tags)).2 = [] →
      lookupUser (process_message sendOk now c
          (ChatMessage.Message nickname msg tags)).1.all_users nickname =
        some (senderUser c nickname tags)) ∧
    (process_message sendOk now c (ChatMessage.Message nickname msg tags)).2.length ≤ 1 := by
  rw [process_message_message sendOk now c nickname msg tags hself, if_neg hon, if_neg hoff]
  cases hb : c.ban_mode_enabled with
  | false =>
    simp [send, lookup_msgRoster]
  | true =>
    cases hcb : (!(senderUser c nickname tags).isProtected &&
        Checker.check c.checker (strTrim msg)) with
    | false =>
      have hd : (senderUser c nickname tags).isProtected = true ∨
          Checker.check c.checker (strTrim msg) = false := by
        by_cases hp : (senderUser c nickname tags).isProtected = true
        · exact Or.inl hp
        · by_cases hq : Checker.check c.checker (strTrim msg) = false
          · exact Or.inr hq
          · exfalso
            have hp' : (senderUser c nickname tags).isProtected = false := by
              simpa using hp
            have hq' : Checker.check c.checker (strTrim msg) = true := by
              simpa using hq
            rw [hp', hq'] at hcb
            simp at hcb
      rcases hd with hp | hq
      · simp [hcb, hp, send, lookup_msgRoster]
      · simp [hcb, hq, send, lookup_msgRoster]
    | true =>
      have hpq : (senderUser c nickname tags).isProtected = false ∧
          Checker.check c.checker (strTrim msg) = true := by
        cases hp : (senderUser c nickname tags).isProtected <;>
          cases hq : Checker.check c.checker (strTrim msg) <;>
          rw [hp, hq] at hcb <;> simp_all
      obtain ⟨hp, hq⟩ := hpq
      simp [hcb, hp, hq, send, lookup_update_self, lookup_msgRoster]

/-- C1 witness: with hammer mode on, an unprotected sender saying
`ban me! ` (trailing space trimmed away) is sanctioned. -/
theorem sanction_iff_witness :
    (process_message (fun _ => true) 7 chatHammerOn
      (ChatMessage.Message "bob" "ban me! " MessageTagData.default)).2 =
      [("/ban " ++ "bob", (fun _ : String => true) ("/ban " ++ "bob"))] :=
  ((sanction_iff (fun _ => true) 7 chatHammerOn "bob" "ban me! " MessageTagData.default
      (by decide) (by decide) (by decide)).2.1 (by decide)).1

/-- C2 counterexample: the claim reads the control phrases as matched on
the trimmed text, but the code compares the raw text: a moderator sending
`:hammer on ` (trailing space, trimming to the on-phrase) neither enables
hammer mode nor triggers any announcement. -/
theorem control_phrase_trim_counterexample :
    strTrim ":hammer on " = ":hammer on" ∧
    (process_message (fun _ => true) 0 chatHammerOff
      (ChatMessage.Message "alice" ":hammer on " MessageTagData.default)).1.ban_mode_enabled =
      false ∧
    (process_message (fun _ => true) 0 chatHammerOff
      (ChatMessage.Message "alice" ":hammer on " MessageTagData.default)).2 = [] :=
  ⟨by decide, by decide, by decide⟩

/-- C2 (amended): the toggle changes only on a message whose exact,
untrimmed text is a control phrase from a non-bot sender whose roster entry
is a moderator; a moderator's on-phrase enables it with an announcement and
the off-phrase disables it with an announcement, while a non-moderator's
control phrase changes nothing and sends nothing. -/
theorem control_phrase_exact (sendOk : String → Bool) (now : Nat) (c : Chat) :
    (∀ m : ChatMessage,
      (process_message sendOk now c m).1.ban_mode_enabled ≠ c.ban_mode_enabled →
      ∃ nickname tags, nickname ≠ c.my_nickname ∧
        (ensuredUser c.all_users nickname).is_mod = true ∧
        (m = ChatMessage.Message nickname ":hammer on" tags ∨
         m = ChatMessage.Message nickname ":hammer off" tags)) ∧
    (∀ nickname tags, nickname ≠ c.my_nickname →
      ((ensuredUser c.all_users nickname).is_mod = true →
        (process_message sendOk now c
          (ChatMessage.Message nickname ":hammer on" tags)).1.ban_mode_enabled = true ∧
        (process_message sendOk now c (ChatMessage.Message nickname ":hammer on" tags)).2 =
          [(hammerOnAnnouncement, sendOk hammerOnAnnouncement)] ∧
        (process_message sendOk now c
          (ChatMessage.Message nickname ":hammer off" tags)).1.ban_mode_enabled = false ∧
        (process_message sendOk now c (ChatMessage.Message nickname ":hammer off" tags)).2 =
          [(hammerOffAnnouncement, sendOk hammerOffAnnouncement)]) ∧
      ((ensuredUser c.all_users nickname).is_mod = false →
        (process_message sendOk now c
          (ChatMessage.Message nickname ":hammer on" tags)).1.ban_mode_enabled =
          c.ban_mode_enabled ∧
        (process_message sendOk now c (ChatMessage.Message nickname ":hammer on" tags)).2 = [] ∧
        (process_message sendOk now c
          (ChatMessage.Message nickname ":hammer off" tags)).1.ban_mode_enabled =
          c.ban_mode_enabled ∧
        (process_message sendOk now c (ChatMessage.Message nickname ":hammer off" tags)).2 =
          [])) := by
  constructor
  · intro m h
    by_cases hmsg : ∃ nickname msg tags, m = ChatMessage.Message nickname msg tags
    · obtain ⟨nickname, msg, tags, rfl⟩ := hmsg
      by_cases hself : nickname = c.my_nickname
      · rw [hself, process_message_self] at h
        exact absurd rfl h
      · rw [process_message_message sendOk now c nickname msg tags hself] at h
        by_cases hon : msg = ":hammer on"
        · subst hon
          cases hmod : (ensuredUser c.all_users nickname).is_mod with
          | true => exact ⟨nickname, tags, hself, hmod, Or.inl rfl⟩
          | false =>
            rw [if_pos rfl, hmod] at h
            simp at h
        · by_cases hoff : msg = ":hammer off"
          · subst hoff
            cases hmod : (ensuredUser c.all_users nickname).is_mod with
            | true => exact ⟨nickname, tags, hself, hmod, Or.inr rfl⟩
            | false =>
              rw [if_neg (by decide), if_pos rfl, hmod] at h
              simp at h
          · rw [if_neg hon, if_neg hoff] at h
            cases hb : c.ban_mode_enabled with
            | false => simp [hb] at h
            | true =>
              cases hcb : (!(senderUser c nickname tags).isProtected &&
                  Checker.check c.checker (strTrim msg)) with
              | false => simp [hb, hcb] at h
              | true => simp [hb, hcb] at h
    · exfalso
      apply h
      push_neg at hmsg
      exact process_message_ban_mode_other sendOk now c m hmsg
  · intro nickname tags hself
    have hon := process_message_message sendOk now c nickname ":hammer on" tags hself
    have hoff := process_message_message sendOk now c nickname ":hammer off" tags hself
    rw [if_pos rfl] at hon
    rw [if_neg (by decide), if_pos rfl] at hoff
    constructor
    · intro hmod
      rw [hmod, if_pos rfl] at hon hoff
      rw [hon, hoff]
      exact ⟨rfl, rfl, rfl, rfl⟩
    · intro hmod
      rw [hmod] at hon hoff
      simp only [Bool.false_eq_true, if_false] at hon hoff
      rw [hon, hoff]
      exact ⟨rfl, rfl, rfl, rfl⟩

/-- C2 witness: a moderator sending the exact on-phrase enables hammer
mode. -/
theorem control_phrase_exact_witness :
    (process_message (fun _ => true) 0 chatHammerOff
      (ChatMessage.Message "alice" ":hammer on" MessageTagData.default)).1.ban_mode_enabled =
      true :=
  (((control_phrase_exact (fun _ => true) 0 chatHammerOff).2 "alice"
      MessageTagData.default (by decide)).1 (by decide)).1

/-- C3: a raw PRIVMSG lacking tags, lacking a prefix, with a prefix
containing no `!`, or whose tags fail to parse produces no event; otherwise
it produces exactly one Message event whose author is the prefix substring
before the first `!`. -/
theorem privmsg_classify (tagsOpt : Option (List Tag)) (pfxOpt : Option String)
    (target msg : String) :
    (tagsOpt = none →
      parse_message ⟨tagsOpt, pfxOpt, Command.PRIVMSG target msg⟩ = none) ∧
    (pfxOpt = none →
      parse_message ⟨tagsOpt, pfxOpt, Command.PRIVMSG target msg⟩ = none) ∧
    (∀ p, pfxOpt = some p → p.data.contains '!' = false →
      parse_message ⟨tagsOpt, pfxOpt, Command.PRIVMSG target msg⟩ = none) ∧
    (∀ ts e, tagsOpt = some ts → MessageTagData.from_tags ts = Except.error e →
      parse_message ⟨tagsOpt, pfxOpt, Command.PRIVMSG target msg⟩ = none) ∧
    (∀ ts p td, tagsOpt = some ts → pfxOpt = some p →
      MessageTagData.from_tags ts = Except.ok td → p.data.contains '!' = true →
      parse_message ⟨tagsOpt, pfxOpt, Command.PRIVMSG target msg⟩ =
        some (ChatMessage.Message (String.mk (p.data.takeWhile (fun c => c ≠ '!'))) msg td)) := by
  refine ⟨?_, ?_, ?_, ?_, ?_⟩
  · rintro rfl
    rfl
  · rintro rfl
    cases tagsOpt <;> rfl
  · rintro p rfl hc
    cases tagsOpt with
    | none => rfl
    | some ts =>
      cases hft : MessageTagData.from_tags ts with
      | error e => simp [parse_message, hft]
      | ok td =>
        simp only [parse_message, hft]
        rw [parse_user_name_from_pfx, hc]
        rfl
  · rintro ts e rfl herr
    cases pfxOpt with
    | none => rfl
    | some p => simp [parse_message, herr]
  · rintro ts p td rfl rfl hok hc
    simp only [parse_message, hok, parse_user_name_from_pfx, hc, if_true]

/-- C3 witness: a PRIVMSG with no tags is dropped. -/
theorem privmsg_classify_witness :
    parse_message ⟨none, some "MyUser!myuser@tmi.twitch.tv",
      Command.PRIVMSG "#chan" "hello"⟩ = none :=
  (privmsg_classify none (some "MyUser!myuser@tmi.twitch.tv") "#chan" "hello").1 rfl

/-- C4: a raw CLEARCHAT with no target nickname classifies to Clear; with a
target and tags carrying a parseable ban-duration it classifies to Timeout
with that duration; with a target and tags but no parseable ban-duration it
classifies to Ban; with a target but no tags it is dropped. -/
theorem clearchat_classify (tagsOpt : Option (List Tag)) (pfxOpt : Option String)
    (args : List String) (sfx : Option String) :
    (sfx = none →
      parse_message ⟨tagsOpt, pfxOpt, Command.Raw "CLEARCHAT" args sfx⟩ =
        some ChatMessage.Clear) ∧
    (∀ nick, sfx = some nick → tagsOpt = none →
      parse_message ⟨tagsOpt, pfxOpt, Command.Raw "CLEARCHAT" args sfx⟩ = none) ∧
    (∀ nick ts v d, sfx = some nick → tagsOpt = some ts →
      banDurationVals ts = [v] → parseU32 v = some d →
      ∃ reason, parse_message ⟨tagsOpt, pfxOpt, Command.Raw "CLEARCHAT" args sfx⟩ =
        some (ChatMessage.Timeout nick d reason)) ∧
    (∀ nick ts, sfx = some nick → tagsOpt = some ts →
      (∀ v ∈ banDurationVals ts, parseU32 v = none) →
      ∃ reason, parse_message ⟨tagsOpt, pfxOpt, Command.Raw "CLEARCHAT" args sfx⟩ =
        some (ChatMessage.Ban nick reason)) := by
  refine ⟨?_, ?_, ?_, ?_⟩
  · rintro rfl
    cases tagsOpt <;> rfl
  · rintro nick rfl rfl
    rfl
  · rintro nick ts v d rfl rfl hvals hv
    refine ⟨(clearchatTags ts (none, none)).2, ?_⟩
    have hdur : (clearchatTags ts (none, none)).1 = some d := by
      rw [clearchatTags_duration_single ts (none, none) v hvals, hv]
    simp [parse_message, hdur]
  · rintro nick ts rfl rfl hnone
    refine ⟨(clearchatTags ts (none, none)).2, ?_⟩
    have hdur : (clearchatTags ts (none, none)).1 = none :=
      clearchatTags_duration_none ts (none, none) rfl hnone
    simp [parse_message, hdur]

/-- C4 witness: a targeted CLEARCHAT with `ban-duration=600` classifies to
a 600-second Timeout. -/
theorem clearchat_classify_witness :
    ∃ reason,
      parse_message ⟨some [⟨"ban-duration", some "600"⟩, ⟨"ban-reason", some "spam"⟩],
        none, Command.Raw "CLEARCHAT" ["#chan"] (some "triplepat")⟩ =
      some (ChatMessage.Timeout "triplepat" 600 reason) :=
  (clearchat_classify (some [⟨"ban-duration", some "600"⟩, ⟨"ban-reason", some "spam"⟩])
      none ["#chan"] (some "triplepat")).2.2.1 "triplepat"
      [⟨"ban-duration", some "600"⟩, ⟨"ban-reason", some "spam"⟩] "600" 600
      rfl rfl (by decide) (by decide)

/-- C6: `is_paying` is monotonic: no engine operation ever resets a true
`is_paying`, and a message carrying a true subscriber or turbo tag sets the
sender's `is_paying` to true. -/
theorem is_paying_monotonic (sendOk : String → Bool) (now : Nat) (c : Chat) :
    (∀ (m : ChatMessage) (n : String) (u : ChatUser),
      lookupUser c.all_users n = some u → u.is_paying = true →
      ∃ u', lookupUser (process_message sendOk now c m).1.all_users n = some u' ∧
        u'.is_paying = true) ∧
    (∀ nickname msg tags, nickname ≠ c.my_nickname →
      (tags.is_subscriber = some true ∨ tags.is_turbo = some true) →
      ∃ u', lookupUser (process_message sendOk now c
          (ChatMessage.Message nickname msg tags)).1.all_users nickname = some u' ∧
        u'.is_paying = true) := by
  constructor
  · intro m n u hu hp
    by_cases hmsg : ∃ a b t, m = ChatMessage.Message a b t
    · obtain ⟨a, b, t, rfl⟩ := hmsg
      rcases message_lookup_cases sendOk now c a b t n u hu with h | h | h
      · exact ⟨u, h, hp⟩
      · exact ⟨_, h, applyTags_is_paying_mono u t hp⟩
      · exact ⟨_, h, applyTags_is_paying_mono u t hp⟩
    · by_cases hop : ∃ a b, m = ChatMessage.Operator a b
      · obtain ⟨a, b, rfl⟩ := hop
        rcases operator_lookup_cases sendOk now c a b n u hu with h | h
        · exact ⟨u, h, hp⟩
        · exact ⟨_, h, hp⟩
      · push_neg at hmsg hop
        rw [process_message_roster_other sendOk now c m hmsg hop]
        exact ⟨u, hu, hp⟩
  · intro nickname msg tags hself htag
    have hsu : (senderUser c nickname tags).is_paying = true :=
      applyTags_is_paying_of_tag _ _ htag
    have hcases :
        lookupUser (process_message sendOk now c
            (ChatMessage.Message nickname msg tags)).1.all_users nickname =
          some (senderUser c nickname tags) ∨
        lookupUser (process_message sendOk now c
            (ChatMessage.Message nickname msg tags)).1.all_users nickname =
          some { senderUser c nickname tags with auto_ban_date := some now } := by
      rw [process_message_message sendOk now c nickname msg tags hself]
      split_ifs <;>
        first
          | exact Or.inl (lookup_msgRoster c nickname tags)
          | exact Or.inr (by rw [lookup_update_self, lookup_msgRoster]; rfl)
    rcases hcases with h | h
    · exact ⟨_, h, hsu⟩
    · exact ⟨_, h, hsu⟩

/-- C6 witness: a subscriber tag marks the sender as paying. -/
theorem is_paying_monotonic_witness :
    ∃ u', lookupUser (process_message (fun _ => true) 0 chatHammerOff
        (ChatMessage.Message "bob" "yo"
          { MessageTagData.default with is_subscriber := some true })).1.all_users "bob" =
      some u' ∧ u'.is_paying = true :=
  (is_paying_monotonic (fun _ => true) 0 chatHammerOff).2 "bob" "yo"
    { MessageTagData.default with is_subscriber := some true } (by decide) (Or.inl rfl)

/-- C7: the engine's state is identical under any two send oracles (a
failed send is only recorded, never rolled back), the attempted lines are
the same, and a sanctioned sender's auto-ban date is set even when the
sanction line fails to send. -/
theorem send_failure_no_rollback (f g : String → Bool) (now : Nat) (c : Chat)
    (m : ChatMessage) :
    (process_message f now c m).1 = (process_message g now c m).1 ∧
    (process_message f now c m).2.map Prod.fst = (process_message g now c m).2.map Prod.fst ∧
    (∀ nickname msg tags,
      nickname ≠ c.my_nickname → msg ≠ ":hammer on" → msg ≠ ":hammer off" →
      c.ban_mode_enabled = true →
      (senderUser c nickname tags).isProtected = false →
      Checker.check c.checker (strTrim msg) = true →
      f ("/ban " ++ nickname) = false →
      (process_message f now c (ChatMessage.Message nickname msg tags)).2 =
        [("/ban " ++ nickname, false)] ∧
      lookupUser (process_message f now c
          (ChatMessage.Message nickname msg tags)).1.all_users nickname =
        some { senderUser c nickname tags with auto_ban_date := some now }) := by
  refine ⟨?_, ?_, ?_⟩
  · cases m
    case Message nickname msg tags =>
      by_cases hself : nickname = c.my_nickname
      · rw [hself, process_message_self, process_message_self]
      · rw [process_message_message f now c nickname msg tags hself,
            process_message_message g now c nickname msg tags hself]
        split_ifs <;> rfl
    all_goals rfl
  · cases m
    case Message nickname msg tags =>
      by_cases hself : nickname = c.my_nickname
      · rw [hself, process_message_self, process_message_self]
      · rw [process_message_message f now c nickname msg tags hself,
            process_message_message g now c nickname msg tags hself]
        split_ifs <;> rfl
    all_goals rfl
  · intro nickname msg tags hself hon hoff hb hprot hcheck hf
    rw [process_message_message f now c nickname msg tags hself, if_neg hon, if_neg hoff,
      hb, if_pos rfl, hprot, hcheck,
      if_pos (show (!false && true) = true from rfl)]
    refine ⟨?_, ?_⟩
    · simp [send, hf]
    · rw [lookup_update_self, lookup_msgRoster]
      rfl

/-- C7 witness: with a transport that fails every send, the sanctioned
sender's auto-ban date is still set. -/
theorem send_failure_no_rollback_witness :
    lookupUser (process_message (fun _ => false) 9 chatHammerOn
        (ChatMessage.Message "bob" "ban me!" MessageTagData.default)).1.all_users "bob" =
      some { senderUser chatHammerOn "bob" MessageTagData.default with
        auto_ban_date := some 9 } :=
  ((send_failure_no_rollback (fun _ => false) (fun _ => true) 9 chatHammerOn
      (ChatMessage.Message "bob" "ban me!" MessageTagData.default)).2.2 "bob" "ban me!"
      MessageTagData.default (by decide) (by decide) (by decide) rfl (by decide)
      (by decide) rfl).2

end PurpleHammer
